import Mathlib

/-!
Shallow embedding of the pageel-cms configuration engine.

Sources embedded here:
* src/core/src/features/settings/types.ts  (SETTINGS_SCHEMA, DEFAULT_SETTINGS)
* src/core/src/features/settings/store.ts  (loadSettings, setSettings, validateSettings)
* src/unnamed/part_000                     (app store: startSync, endSync, setScanPhase)
* src/core/src/features/app/store.ts appendix (withSyncLock)
* src/unnamed/part_003                     (Dashboard: loadSettingsAndScan, handleFileImport v2 check)

JavaScript runtime values that flow through the settings machinery are modelled
by the inductive `JsValue`; JS numbers are modelled as rationals (the code only
ever produces and compares finite decimal values).  Effectful store code is
modelled by explicit state passing; the injected collaborators (localStorage,
git service, repository scan) are modelled as inputs to the bootstrap function,
and the bootstrap records which collaborators it invoked.
-/

namespace Pageel

/-- Model of the scalar JavaScript values that flow through the settings
machinery: strings, booleans, numbers, null and undefined. -/
inductive JsValue where
  | undefV : JsValue
  | nullV : JsValue
  | boolV : Bool → JsValue
  | num : Rat → JsValue
  | str : String → JsValue
deriving DecidableEq, Repr

/-- JavaScript truthiness on `JsValue`: undefined/null are falsy, a boolean is
itself, a number is truthy iff nonzero, a string iff non-empty. -/
def jsTruthy : JsValue → Bool
  | .undefV => false
  | .nullV => false
  | .boolV b => b
  | .num q => q ≠ 0
  | .str s => s ≠ ""

/-- Digits of a list of characters folded into a natural number; `none` when a
non-digit occurs. -/
def digitsToNat : List Char → Option Nat
  | [] => some 0
  | c :: cs =>
    if c.isDigit then
      (digitsToNat cs).map (fun n => (c.toNat - 48) * 10 ^ cs.length + n)
    else
      none

/-- Whitespace stripping at both ends of a string, as Number() performs before
parsing; written structurally over the character list so that it reduces. -/
def jsTrim (s : String) : String :=
  String.mk (((s.data.dropWhile Char.isWhitespace).reverse.dropWhile
    Char.isWhitespace).reverse)

/-- Model of the JavaScript Number(string) conversion, restricted to the
decimal literals this code base produces: optional sign, integer part, optional
fractional part, surrounding whitespace; a whitespace-only string converts to 0
(as in JS) and anything else is NaN, modelled as `none`. -/
def jsNumber (s : String) : Option Rat :=
  let t := jsTrim s
  if t = "" then some 0
  else
    let cs := t.toList
    let (neg, body) :=
      match cs with
      | '-' :: rest => (true, rest)
      | '+' :: rest => (false, rest)
      | rest => (false, rest)
    let intPart := body.takeWhile Char.isDigit
    let rest := body.dropWhile Char.isDigit
    let mag : Option Rat :=
      match rest with
      | [] =>
        if intPart.isEmpty then none
        else (digitsToNat intPart).map (fun n => (n : Rat))
      | '.' :: frac =>
        if frac.all Char.isDigit ∧ (intPart ≠ [] ∨ frac ≠ []) then
          match digitsToNat intPart, digitsToNat frac with
          | some i, some f => some ((i : Rat) + (f : Rat) / ((10 : Rat) ^ frac.length))
          | _, _ => none
        else none
      | _ => none
    mag.map (fun q => if neg then -q else q)

/-- Decoding of a raw localStorage string by type inference, from
store.ts loadSettings / part_003 loadSettingsAndScan: the literals true/false
become booleans, numeric-looking non-empty strings become numbers, anything
else stays a string. -/
def decodeStored (stored : String) : JsValue :=
  if stored = "true" then .boolV true
  else if stored = "false" then .boolV false
  else
    match jsNumber stored with
    | some q => if stored ≠ "" then .num q else .str stored
    | none => .str stored

/-- The fourteen settings fields of AppSettings, in the declaration order of
DEFAULT_SETTINGS in settings/types.ts. -/
inductive SettingsKey where
  | projectType
  | postsPath
  | imagesPath
  | domainUrl
  | postFileTypes
  | imageFileTypes
  | publishDateSource
  | imageCompressionEnabled
  | maxImageSize
  | imageResizeMaxWidth
  | newPostCommit
  | updatePostCommit
  | newImageCommit
  | updateImageCommit
deriving DecidableEq, Repr

/-- String name of each settings field, as it appears as an object key and a
localStorage key in the TypeScript source. -/
def keyName : SettingsKey → String
  | .projectType => "projectType"
  | .postsPath => "postsPath"
  | .imagesPath => "imagesPath"
  | .domainUrl => "domainUrl"
  | .postFileTypes => "postFileTypes"
  | .imageFileTypes => "imageFileTypes"
  | .publishDateSource => "publishDateSource"
  | .imageCompressionEnabled => "imageCompressionEnabled"
  | .maxImageSize => "maxImageSize"
  | .imageResizeMaxWidth => "imageResizeMaxWidth"
  | .newPostCommit => "newPostCommit"
  | .updatePostCommit => "updatePostCommit"
  | .newImageCommit => "newImageCommit"
  | .updateImageCommit => "updateImageCommit"

/-- The list Object.keys(DEFAULT_SETTINGS) iterated by loadSettings, in
declaration order. -/
def settingsKeys : List SettingsKey :=
  [.projectType, .postsPath, .imagesPath, .domainUrl, .postFileTypes,
   .imageFileTypes, .publishDateSource, .imageCompressionEnabled,
   .maxImageSize, .imageResizeMaxWidth, .newPostCommit, .updatePostCommit,
   .newImageCommit, .updateImageCommit]

/-- Per-field validators of settings/types.ts SETTINGS_SCHEMA, keyed by the
field name; `none` models absence of a validator for an unknown key. -/
def SETTINGS_SCHEMA : String → Option (JsValue → Bool)
  | "projectType" => some fun v =>
      match v with
      | .str s => s = "astro" ∨ s = "github"
      | _ => false
  | "postsPath" => some fun v => match v with | .str _ => true | _ => false
  | "imagesPath" => some fun v => match v with | .str _ => true | _ => false
  | "domainUrl" => some fun v => match v with | .str _ => true | _ => false
  | "postTemplate" => some fun v => match v with | .str _ => true | _ => false
  | "postFileTypes" => some fun v =>
      match v with | .str s => s.length < 100 | _ => false
  | "imageFileTypes" => some fun v =>
      match v with | .str s => s.length < 100 | _ => false
  | "publishDateSource" => some fun v =>
      match v with | .str s => s = "file" ∨ s = "system" | _ => false
  | "imageCompressionEnabled" => some fun v =>
      match v with | .boolV _ => true | _ => false
  | "maxImageSize" => some fun v =>
      match v with | .num q => 10 ≤ q ∧ q ≤ 1024 | _ => false
  | "imageResizeMaxWidth" => some fun v =>
      match v with | .num q => 0 ≤ q ∧ q ≤ 10000 | _ => false
  | "newPostCommit" => some fun v =>
      match v with | .str s => s.length < 200 | _ => false
  | "updatePostCommit" => some fun v =>
      match v with | .str s => s.length < 200 | _ => false
  | "newImageCommit" => some fun v =>
      match v with | .str s => s.length < 200 | _ => false
  | "updateImageCommit" => some fun v =>
      match v with | .str s => s.length < 200 | _ => false
  | "pageel-cms-lang" => some fun v =>
      match v with | .str s => s = "en" ∨ s = "vi" | _ => false
  | _ => none

/-- Boolean result of looking up a key in SETTINGS_SCHEMA and applying the
validator; false when the key has no validator. -/
def schemaCheck (key : String) (v : JsValue) : Bool :=
  match SETTINGS_SCHEMA key with
  | some f => f v
  | none => false

/-- The DEFAULT_SETTINGS record of settings/types.ts, as a total assignment of
a JsValue to each settings field. -/
def DEFAULT_SETTINGS : SettingsKey → JsValue
  | .projectType => .str "astro"
  | .postsPath => .str ""
  | .imagesPath => .str "public/images"
  | .domainUrl => .str ""
  | .postFileTypes => .str ".md,.mdx"
  | .imageFileTypes => .str "image/*"
  | .publishDateSource => .str "file"
  | .imageCompressionEnabled => .boolV false
  | .maxImageSize => .num 500
  | .imageResizeMaxWidth => .num 1024
  | .newPostCommit => .str "feat(content): add post \"{filename}\""
  | .updatePostCommit => .str "fix(content): update post \"{filename}\""
  | .newImageCommit => .str "feat(assets): add image \"{filename}\""
  | .updateImageCommit => .str "refactor(assets): update image for \"{filename}\""

/-- Object.entries(DEFAULT_SETTINGS): the default settings as a key/value
entry list. -/
def defaultEntries : List (String × JsValue) :=
  settingsKeys.map (fun k => (keyName k, DEFAULT_SETTINGS k))

/-- The validateSettings action of settings/store.ts: every entry of the given
partial settings object must have no validator or pass its validator. -/
def validateSettings (entries : List (String × JsValue)) : Bool :=
  entries.all fun kv =>
    match SETTINGS_SCHEMA kv.1 with
    | some f => f kv.2
    | none => true

/-- A total settings assignment, the in-memory settings object. -/
def Settings : Type := SettingsKey → JsValue

/-- A partial settings object (Partial AppSettings): fields may be absent. -/
def PartialSettings : Type := SettingsKey → Option JsValue

/-- Object spread of a partial settings object over a settings object, as in
the TypeScript pattern of spreading newSettings over state.settings. -/
def mergePartial (s : Settings) (p : PartialSettings) : Settings :=
  fun k => (p k).getD (s k)

/-- Functional update of a single settings field, the effect of one property
assignment on the settings object. -/
def setKey (s : Settings) (k : SettingsKey) (v : JsValue) : Settings :=
  fun k2 => if k2 = k then v else s k2

/-- Truthiness of an optional field of a partial settings object: an absent
field reads as undefined, hence falsy. -/
def optTruthy : Option JsValue → Bool
  | some v => jsTruthy v
  | none => false

/-- The sync-lock slice of the app store of part_000: the process-wide
isSyncing flag and the optional status message. -/
structure SyncState where
  isSyncing : Bool
  syncMessage : Option String
deriving DecidableEq, Repr

/-- The startSync action of part_000: sets isSyncing and stores the message,
defaulting a missing or falsy (empty) message to the Syncing... placeholder. -/
def startSync (message : Option String) (s : SyncState) : SyncState :=
  { s with
    isSyncing := true
    syncMessage := some (match message with
      | some m => if m = "" then "Syncing..." else m
      | none => "Syncing...") }

/-- The endSync action of part_000: clears the isSyncing flag and the
status message. -/
def endSync (s : SyncState) : SyncState :=
  { s with isSyncing := false, syncMessage := none }

/-- The error message thrown by withSyncLock when a sync is already
in flight. -/
def busyMessage : String := "Another sync operation is in progress. Please wait."

/-- The withSyncLock wrapper: the wrapped async operation is modelled as a
state transformer on the app store that either resolves with a value or
throws an error string.  If isSyncing is already set the call throws the busy
error without running the operation; otherwise it runs the operation on the
state produced by startSync and applies endSync to whatever state the
operation left behind, whether it resolved or threw. -/
def withSyncLock {α : Type} (operation : SyncState → Except String α × SyncState)
    (message : Option String) (s : SyncState) : Except String α × SyncState :=
  if s.isSyncing then
    (Except.error busyMessage, s)
  else
    let s1 := startSync message s
    let (result, s2) := operation s1
    (result, endSync s2)

/-- The scan-progress slice of the app store of part_000. -/
structure ScanState where
  scanPhase : Option String
  scanProgress : Int
deriving DecidableEq, Repr

/-- Truthiness of a string-or-null value: null and the empty string are
falsy. -/
def optStrTruthy : Option String → Bool
  | some m => m ≠ ""
  | none => false

/-- The setScanPhase action of part_000: stores the phase message and, when no
explicit progress is given, defaults the progress to 50 for a truthy phase and
0 otherwise (phase is a string-or-null, so an empty string is falsy). -/
def setScanPhase (phase : Option String) (progress : Option Int)
    (s : ScanState) : ScanState :=
  { s with
    scanPhase := phase
    scanProgress :=
      match progress with
      | some p => p
      | none => if optStrTruthy phase then 50 else 0 }

/-- The state slice of the settings store of settings/store.ts. -/
structure SettingsState where
  settings : Settings
  isLoading : Bool
  isSaving : Bool
  saveSuccess : Bool
  isSetupComplete : Bool

/-- Argument of the setSettings action: either a partial update object or an
updater function over the previous settings. -/
inductive SettingsUpdate where
  | patchObj (p : PartialSettings)
  | updaterFn (f : Settings → Settings)

/-- The setSettings action of settings/store.ts: an updater function is
applied to the previous settings, a partial object is spread over them; the
remaining state fields are untouched. -/
def setSettings (u : SettingsUpdate) (st : SettingsState) : SettingsState :=
  match u with
  | .updaterFn f => { st with settings := f st.settings }
  | .patchObj p => { st with settings := mergePartial st.settings p }

/-- The keys treated as repo-specific by settings/store.ts. -/
def REPO_SPECIFIC_KEYS : List String :=
  ["projectType", "postsPath", "imagesPath", "domainUrl"]

/-- The getStorageKey helper of settings/store.ts. -/
def getStorageKey (key : String) (repoId : String) (isRepoSpecific : Bool) : String :=
  if isRepoSpecific then key ++ "_" ++ repoId else key

/-- The localStorage key read by loadSettings of settings/store.ts for a
settings field. -/
def storeStorageKey (k : SettingsKey) (repoId : String) : String :=
  getStorageKey (keyName k) repoId (REPO_SPECIFIC_KEYS.contains (keyName k))

/-- The loadedSettings object built by loadSettings of settings/store.ts: for
each known field, read the namespaced localStorage key, decode by type
inference and keep the value only if it has no validator or passes it.
localStorage is modelled as a partial map from keys to stored strings; since
the iterated keys are pairwise distinct, the object built by the source's
forEach is the pointwise function below. -/
def storeLoadedSettings (storage : String → Option String) (repoId : String) :
    PartialSettings :=
  fun k =>
    match storage (storeStorageKey k repoId) with
    | none => none
    | some stored =>
      let value := decodeStored stored
      match SETTINGS_SCHEMA (keyName k) with
      | none => some value
      | some validator => if validator value then some value else none

/-- The loadSettings action of settings/store.ts: spread the loaded valid
subset over the current settings, then mark setup complete when the resulting
projectType, postsPath and imagesPath are all truthy. -/
def loadSettings (storage : String → Option String) (repoId : String)
    (st : SettingsState) : SettingsState :=
  let loaded := storeLoadedSettings storage repoId
  let st1 := { st with settings := mergePartial st.settings loaded }
  if jsTruthy (st1.settings .projectType) ∧ jsTruthy (st1.settings .postsPath)
      ∧ jsTruthy (st1.settings .imagesPath) then
    { st1 with isSetupComplete := true }
  else st1

/-- The nested settings object of a parsed remote v1 config
(config.settings.*), fields read by loadSettingsAndScan; an absent property
reads as undefined. -/
structure ConfigSettingsObj where
  postFileTypes : JsValue
  imageFileTypes : JsValue
  publishDateSource : JsValue
  imageCompressionEnabled : JsValue
  maxImageSize : JsValue
  imageResizeMaxWidth : JsValue
deriving DecidableEq, Repr

/-- The nested commits object of a parsed remote v1 config
(config.commits.*). -/
structure ConfigCommitsObj where
  newPost : JsValue
  updatePost : JsValue
  newImage : JsValue
  updateImage : JsValue
deriving DecidableEq, Repr

/-- The parts of a parsed remote config document read by the merge phase of
loadSettingsAndScan.  pathsPosts/pathsImages are the values of the optional
chains config.paths?.posts and config.paths?.images; settingsObj and
commitsObj are `some` exactly when config.settings resp. config.commits is a
truthy object. -/
structure Config where
  projectType : JsValue
  pathsPosts : JsValue
  pathsImages : JsValue
  domainUrl : JsValue
  settingsObj : Option ConfigSettingsObj
  commitsObj : Option ConfigCommitsObj
deriving DecidableEq, Repr

/-- The applyIfValid helper of loadSettingsAndScan (part_003): assign the
value into the draft only when it is defined, has a validator in
SETTINGS_SCHEMA and passes it. -/
def applyIfValid (key : SettingsKey) (value : JsValue) (draft : Settings) : Settings :=
  if value ≠ JsValue.undefV ∧ schemaCheck (keyName key) value = true then
    setKey draft key value
  else draft

/-- The field-by-field merge of a parsed remote config over the settings
draft (part_003 lines 187-209): the four top-level fields are merged behind a
truthiness guard, the nested settings and commits fields via applyIfValid
alone. -/
def remoteMerge (config : Config) (draft0 : Settings) : Settings :=
  let d0 := if jsTruthy config.projectType then
    applyIfValid .projectType config.projectType draft0 else draft0
  let d1 := if jsTruthy config.pathsPosts then
    applyIfValid .postsPath config.pathsPosts d0 else d0
  let d2 := if jsTruthy config.pathsImages then
    applyIfValid .imagesPath config.pathsImages d1 else d1
  let d3 := if jsTruthy config.domainUrl then
    applyIfValid .domainUrl config.domainUrl d2 else d2
  let d4 :=
    match config.settingsObj with
    | some so =>
      applyIfValid .imageResizeMaxWidth so.imageResizeMaxWidth
        (applyIfValid .maxImageSize so.maxImageSize
          (applyIfValid .imageCompressionEnabled so.imageCompressionEnabled
            (applyIfValid .publishDateSource so.publishDateSource
              (applyIfValid .imageFileTypes so.imageFileTypes
                (applyIfValid .postFileTypes so.postFileTypes d3)))))
    | none => d3
  match config.commitsObj with
  | some co =>
    applyIfValid .updateImageCommit co.updateImage
      (applyIfValid .newImageCommit co.newImage
        (applyIfValid .updatePostCommit co.updatePost
          (applyIfValid .newPostCommit co.newPost d4)))
  | none => d4

/-- Outcome of reading and parsing the remote .pageelrc.json: either
getFileContent or JSON.parse threw, or the parse produced a falsy document,
or it produced a truthy config object. -/
inductive RemoteOutcome where
  | fetchOrParseError
  | parsedFalsy
  | parsedConfig (config : Config)

/-- Result of the spec-modelled loadCollectionsFromPageelrc call: a parsed v2
payload with its collections and an optional settings object. -/
structure CollectionsData where
  collections : List JsValue
  settingsData : Option PartialSettings

/-- The return point through which a run of loadSettingsAndScan exits. -/
inductive BootRoute where
  | remoteConfig
  | cacheFallback
  | scanDone
  | scanError
deriving DecidableEq, Repr

/-- Inputs of one run of loadSettingsAndScan: the store state at effect start
(settings0 is also the stale closure variable the effect captures), the
localStorage contents, the repository full name, the results of the injected
collaborators, and the initial scan-progress state. -/
structure BootInput where
  settings0 : Settings
  setup0 : Bool
  scan0 : ScanState
  storage : String → Option String
  repoFullName : String
  collectionsData : Option CollectionsData
  remote : RemoteOutcome
  findUrlResult : Except String (Option String)
  contentDirsResult : Except String (List String)
  imageDirsResult : Except String (List String)

/-- Observable outcome of one run of loadSettingsAndScan: final settings and
flags, final scan-progress state, suggested paths, which of the three scan
collaborators were invoked, the exit route, and the collections pushed into
the workspace.  The localStorage write-backs of the remote-config route
(part_003 lines 213-222) are persistence side effects outside the properties
verified here and are not modelled. -/
structure BootResult where
  settings : Settings
  isSetupComplete : Bool
  isScanning : Bool
  scan : ScanState
  suggestedPostPaths : List String
  suggestedImagePaths : List String
  calledFindUrl : Bool
  calledScanContent : Bool
  calledScanImages : Bool
  route : BootRoute
  workspaceCollections : Option (List JsValue)

/-- The loadedSettings object of loadSettingsAndScan (part_003 lines
153-167): every key is read from its repoFullName-namespaced localStorage
key, decoded by type inference and kept only when it passes its validator. -/
def dashboardCacheLoad (storage : String → Option String) (pre : String) :
    PartialSettings :=
  fun k =>
    match storage (keyName k ++ "_" ++ pre) with
    | none => none
    | some value =>
      let parsedValue := decodeStored value
      match SETTINGS_SCHEMA (keyName k) with
      | none => some parsedValue
      | some validator => if validator parsedValue then some parsedValue else none

/-- Line 168 of part_003: default loadedSettings.imageResizeMaxWidth to 1024
when undefined. -/
def withResizeDefault (loaded : PartialSettings) : PartialSettings :=
  fun k =>
    if k = SettingsKey.imageResizeMaxWidth then
      some ((loaded k).getD (JsValue.num 1024))
    else loaded k

/-- The image-directories step of the scan fallback (part_003 lines
253-258) followed by the shared catch/finally. -/
def scanImagesStep (inp : BootInput) (scan : ScanState) (s : Settings)
    (postDirs : List String) (calledUrl : Bool)
    (ws : Option (List JsValue)) : BootResult :=
  let scan1 := setScanPhase (some "Scanning image directories...") (some 90) scan
  match inp.imageDirsResult with
  | .error e =>
    { settings := s, isSetupComplete := inp.setup0, isScanning := false
      scan := setScanPhase (some ("Error: " ++ e)) (some 0) scan1
      suggestedPostPaths := postDirs, suggestedImagePaths := []
      calledFindUrl := calledUrl, calledScanContent := true, calledScanImages := true
      route := .scanError, workspaceCollections := ws }
  | .ok imageDirs =>
    let s2 := match imageDirs with
      | d :: _ => setKey s .imagesPath (.str d)
      | [] => s
    { settings := s2, isSetupComplete := inp.setup0, isScanning := false
      scan := setScanPhase (some "Scan complete") (some 100) scan1
      suggestedPostPaths := postDirs, suggestedImagePaths := imageDirs
      calledFindUrl := calledUrl, calledScanContent := true, calledScanImages := true
      route := .scanDone, workspaceCollections := ws }

/-- The content-directories step of the scan fallback (part_003 lines
248-251) followed by the shared catch/finally. -/
def scanContentStep (inp : BootInput) (scan : ScanState) (s : Settings)
    (calledUrl : Bool) (ws : Option (List JsValue)) : BootResult :=
  let scan1 := setScanPhase (some "Scanning content directories...") (some 75) scan
  match inp.contentDirsResult with
  | .error e =>
    { settings := s, isSetupComplete := inp.setup0, isScanning := false
      scan := setScanPhase (some ("Error: " ++ e)) (some 0) scan1
      suggestedPostPaths := [], suggestedImagePaths := []
      calledFindUrl := calledUrl, calledScanContent := true, calledScanImages := false
      route := .scanError, workspaceCollections := ws }
  | .ok contentDirs =>
    let s2 := match contentDirs with
      | d :: _ => setKey s .postsPath (.str d)
      | [] => s
    scanImagesStep inp scan1 s2 contentDirs calledUrl ws

/-- The scan fallback of loadSettingsAndScan (part_003 lines 242-265): the
production-URL probe is skipped when the stale closure settings already have a
truthy domainUrl; any collaborator error routes to the catch, which records an
error phase at progress 0 and leaves setup untouched. -/
def runScan (inp : BootInput) (scan : ScanState) (s1 : Settings)
    (ws : Option (List JsValue)) : BootResult :=
  let scan1 := setScanPhase (some "Detecting production URL...") (some 60) scan
  if jsTruthy (inp.settings0 .domainUrl) then
    scanContentStep inp scan1 s1 false ws
  else
    match inp.findUrlResult with
    | .error e =>
      { settings := s1, isSetupComplete := inp.setup0, isScanning := false
        scan := setScanPhase (some ("Error: " ++ e)) (some 0) scan1
        suggestedPostPaths := [], suggestedImagePaths := []
        calledFindUrl := true, calledScanContent := false, calledScanImages := false
        route := .scanError, workspaceCollections := ws }
    | .ok foundUrl =>
      let s2 :=
        if optStrTruthy foundUrl ∧ ¬ jsTruthy (inp.settings0 .domainUrl) then
          setKey s1 .domainUrl (.str (foundUrl.getD ""))
        else s1
      scanContentStep inp scan1 s2 true ws

/-- The loadSettingsAndScan effect of part_003 (lines 122-266), as a function
of its inputs.  Phases in order: push the v2 collections payload (when
present and non-empty) into the workspace; load and validate the cached
settings and spread them over the store settings; if the remote config
fetched and parsed truthy, merge it field by field, mark setup complete and
return; otherwise fall back to the cache-sufficiency check on the loaded
values, and finally to the three-step repository scan. -/
def loadSettingsAndScan (inp : BootInput) : BootResult :=
  let ws : Option (List JsValue) :=
    match inp.collectionsData with
    | some cd => if cd.collections.length > 0 then some cd.collections else none
    | none => none
  let scan1 := setScanPhase (some "Loading saved settings...") (some 10) inp.scan0
  let loaded := withResizeDefault (dashboardCacheLoad inp.storage inp.repoFullName)
  let settings1 := mergePartial inp.settings0 loaded
  let scan2 := setScanPhase (some "Loading saved settings...") (some 20) scan1
  let scan3 := setScanPhase (some "Checking for .pageelrc.json...") (some 30) scan2
  match inp.remote with
  | .parsedConfig config =>
    let newSettings := remoteMerge config (mergePartial inp.settings0 loaded)
    { settings := newSettings, isSetupComplete := true, isScanning := false
      scan := setScanPhase (some "Configuration loaded") (some 100) scan3
      suggestedPostPaths := [], suggestedImagePaths := []
      calledFindUrl := false, calledScanContent := false, calledScanImages := false
      route := .remoteConfig, workspaceCollections := ws }
  | other =>
    let scan4 :=
      match other with
      | .fetchOrParseError =>
        setScanPhase (some "No configuration found, scanning repository...") (some 50) scan3
      | _ => scan3
    if optTruthy (loaded .projectType) ∧ optTruthy (loaded .postsPath)
        ∧ optTruthy (loaded .imagesPath) then
      { settings := settings1, isSetupComplete := true, isScanning := false
        scan := setScanPhase (some "Using cached settings") (some 100) scan4
        suggestedPostPaths := [], suggestedImagePaths := []
        calledFindUrl := false, calledScanContent := false, calledScanImages := false
        route := .cacheFallback, workspaceCollections := ws }
    else
      runScan inp scan4 settings1 ws

/-- JavaScript value-or-array field model for the collections property of an
imported document: Array.isArray distinguishes an actual array from any other
value. -/
inductive JsField where
  | scalar (v : JsValue)
  | arrayOf (xs : List JsValue)
deriving DecidableEq, Repr

/-- The two properties of an imported or fetched config document that the v2
format detection reads. -/
structure ImportedConfig where
  version : JsValue
  collections : JsField
deriving DecidableEq, Repr

/-- The v2 detection of handleFileImport (part_003 line 488): the document is
treated as v2 exactly when its collections property is an array of positive
length; the version property is not consulted. -/
def isV2ImportCheck (c : ImportedConfig) : Bool :=
  match c.collections with
  | .arrayOf xs => xs.length > 0
  | .scalar _ => false

/-- Modelled from the spec: the v2 recognition inside
loadCollectionsFromPageelrc, whose source is not under src/ (only its caller
at part_003 line 128 is).  Per the spec, a v2 payload is recognized by the
presence of a non-empty collections array, not strictly by the version
field. -/
def bootstrapV2Check (c : ImportedConfig) : Bool :=
  match c.collections with
  | .arrayOf xs => xs.length > 0
  | .scalar _ => false

/-- The remote config value that the merge phase would feed into a given
settings field: top-level fields directly, nested fields through their
sub-object, reading as undefined when the sub-object is absent. -/
def remoteFieldValue (config : Config) : SettingsKey → JsValue
  | .projectType => config.projectType
  | .postsPath => config.pathsPosts
  | .imagesPath => config.pathsImages
  | .domainUrl => config.domainUrl
  | .postFileTypes =>
    match config.settingsObj with | some so => so.postFileTypes | none => .undefV
  | .imageFileTypes =>
    match config.settingsObj with | some so => so.imageFileTypes | none => .undefV
  | .publishDateSource =>
    match config.settingsObj with | some so => so.publishDateSource | none => .undefV
  | .imageCompressionEnabled =>
    match config.settingsObj with | some so => so.imageCompressionEnabled | none => .undefV
  | .maxImageSize =>
    match config.settingsObj with | some so => so.maxImageSize | none => .undefV
  | .imageResizeMaxWidth =>
    match config.settingsObj with | some so => so.imageResizeMaxWidth | none => .undefV
  | .newPostCommit =>
    match config.commitsObj with | some co => co.newPost | none => .undefV
  | .updatePostCommit =>
    match config.commitsObj with | some co => co.updatePost | none => .undefV
  | .newImageCommit =>
    match config.commitsObj with | some co => co.newImage | none => .undefV
  | .updateImageCommit =>
    match config.commitsObj with | some co => co.updateImage | none => .undefV

/-- Whether a settings field carries the extra truthiness guard in the merge
phase (the four top-level ifs of part_003 lines 188-191). -/
def guardedField : SettingsKey → Bool
  | .projectType => true
  | .postsPath => true
  | .imagesPath => true
  | .domainUrl => true
  | _ => false

/-- Specification-side characterization of when the merge phase overwrites a
settings field with the remote value: the value must be defined and pass its
validator, and for the four guarded top-level fields it must additionally be
truthy. -/
def remoteFieldMerged (config : Config) (k : SettingsKey) : Bool :=
  let v := remoteFieldValue config k
  (v ≠ JsValue.undefV && schemaCheck (keyName k) v) &&
    (!guardedField k || jsTruthy v)

section Lemmas

/-- Pointwise reading of one applyIfValid update. -/
theorem applyIfValid_apply (k k2 : SettingsKey) (v : JsValue) (d : Settings) :
    applyIfValid k v d k2 =
      if k2 = k ∧ v ≠ JsValue.undefV ∧ schemaCheck (keyName k) v = true then v
      else d k2 := by
  unfold applyIfValid setKey
  by_cases h1 : v ≠ JsValue.undefV ∧ schemaCheck (keyName k) v = true
  · by_cases h2 : k2 = k <;> simp [h1, h2]
  · simp only [if_neg h1]
    rw [if_neg]
    exact fun h => h1 ⟨h.2.1, h.2.2⟩

/-- Application distributes over a conditional between two settings
assignments. -/
theorem if_apply (c : Prop) [Decidable c] (f g : Settings) (k : SettingsKey) :
    (if c then f else g) k = if c then f k else g k := by
  split <;> rfl

/-- Every key of DEFAULT_SETTINGS has a validator in SETTINGS_SCHEMA, so the
validator lookup in the loaders can be read through schemaCheck. -/
theorem schema_defined (k : SettingsKey) :
    ∃ f, SETTINGS_SCHEMA (keyName k) = some f ∧ ∀ v, f v = schemaCheck (keyName k) v := by
  cases k <;> exact ⟨_, rfl, fun v => rfl⟩

/-- The workspaceCollections output of every route of loadSettingsAndScan is
the payload computed from collectionsData at the top of the run. -/
theorem loadSettingsAndScan_workspace (inp : BootInput) :
    (loadSettingsAndScan inp).workspaceCollections =
      match inp.collectionsData with
      | some cd => if cd.collections.length > 0 then some cd.collections else none
      | none => none := by
  unfold loadSettingsAndScan runScan scanContentStep scanImagesStep
  rcases inp.remote with _ | _ | config <;> dsimp only <;>
    repeat' first | rfl | split

end Lemmas

/-- C1: withSyncLock fails immediately with the busy error, leaving the state
untouched and never running the operation, when isSyncing is already set;
otherwise the operation runs on the state produced by startSync — which sets
the busy flag and a status message — and on exit both the flag and the
message are always cleared, whether the operation resolved or threw, so a
subsequent withSyncLock call on the resulting state is not rejected as
busy. -/
theorem withSyncLock_exclusive {α : Type}
    (operation op2 : SyncState → Except String α × SyncState)
    (message msg2 : Option String) (s : SyncState) :
    (s.isSyncing = true →
      withSyncLock operation message s = (Except.error busyMessage, s)) ∧
    (s.isSyncing = false →
      (withSyncLock operation message s).2.isSyncing = false ∧
      (withSyncLock operation message s).2.syncMessage = none ∧
      ((startSync message s).isSyncing = true ∧
        (startSync message s).syncMessage.isSome = true) ∧
      withSyncLock op2 msg2 (withSyncLock operation message s).2 =
        ((op2 (startSync msg2 (withSyncLock operation message s).2)).1,
          endSync (op2 (startSync msg2 (withSyncLock operation message s).2)).2)) := by
  constructor
  · intro h
    simp [withSyncLock, h]
  · intro h
    have h2 : (withSyncLock operation message s).2 =
        endSync (operation (startSync message s)).2 := by
      simp [withSyncLock, h]
    refine ⟨by rw [h2]; rfl, by rw [h2]; rfl, ⟨rfl, by cases message <;> simp [startSync]⟩, ?_⟩
    rw [h2]
    simp [withSyncLock, endSync]

/-- Witness for C1 at concrete inputs: a call on a busy state fails with the
busy error and a call on an idle state exits with both flag and message
cleared. -/
theorem withSyncLock_exclusive_witness :
    withSyncLock (fun st => (Except.ok (1 : Nat), st)) none ⟨true, some "x"⟩ =
      (Except.error busyMessage, ⟨true, some "x"⟩) ∧
    (withSyncLock (fun st => (Except.ok (1 : Nat), st)) (some "saving") ⟨false, none⟩).2.isSyncing
      = false ∧
    (withSyncLock (fun st => (Except.ok (1 : Nat), st)) (some "saving") ⟨false, none⟩).2.syncMessage
      = none :=
  ⟨(withSyncLock_exclusive (fun st => (Except.ok (1 : Nat), st))
      (fun st => (Except.ok 2, st)) none none ⟨true, some "x"⟩).1 rfl,
   ((withSyncLock_exclusive (fun st => (Except.ok (1 : Nat), st))
      (fun st => (Except.ok 2, st)) (some "saving") none ⟨false, none⟩).2 rfl).1,
   ((withSyncLock_exclusive (fun st => (Except.ok (1 : Nat), st))
      (fun st => (Except.ok 2, st)) (some "saving") none ⟨false, none⟩).2 rfl).2.1⟩

/-- C6: loadSettings of the settings store merges exactly the fields whose
namespaced cached string decodes (true/false to booleans, numeric-looking
strings to numbers, anything else a string) to a value passing the field's
validator, leaving every other field at its previous value; the concrete
decodings illustrate the type-inference step. -/
theorem loadSettings_valid_subset (storage : String → Option String)
    (repoId : String) (st : SettingsState) (k : SettingsKey) :
    ((loadSettings storage repoId st).settings k =
      match storage (storeStorageKey k repoId) with
      | some stored =>
        if schemaCheck (keyName k) (decodeStored stored) = true then decodeStored stored
        else st.settings k
      | none => st.settings k) ∧
    decodeStored "true" = .boolV true ∧
    decodeStored "false" = .boolV false ∧
    decodeStored "500" = .num 500 ∧
    decodeStored "astro" = .str "astro" := by
  refine ⟨?_, by decide, by decide, by decide, by decide⟩
  have hmain : (loadSettings storage repoId st).settings =
      mergePartial st.settings (storeLoadedSettings storage repoId) := by
    unfold loadSettings
    dsimp only
    split <;> rfl
  rw [hmain]
  unfold mergePartial storeLoadedSettings
  obtain ⟨f, hf, hfc⟩ := schema_defined k
  rw [hf]
  cases storage (storeStorageKey k repoId) with
  | none => rfl
  | some stored =>
    dsimp only
    rw [hfc]
    by_cases hv : schemaCheck (keyName k) (decodeStored stored) = true <;> simp [hv]

/-- C7: validateSettings of the settings store accepts a partial settings
object exactly when every present key that has a validator in SETTINGS_SCHEMA
passes it, and a key without a validator never affects the result. -/
theorem validateSettings_characterization (entries : List (String × JsValue))
    (k : String) (v : JsValue) :
    (validateSettings entries = true ↔
      ∀ kv ∈ entries, ∀ f, SETTINGS_SCHEMA kv.1 = some f → f kv.2 = true) ∧
    (SETTINGS_SCHEMA k = none →
      validateSettings ((k, v) :: entries) = validateSettings entries) := by
  constructor
  · unfold validateSettings
    rw [List.all_eq_true]
    constructor
    · intro h kv hm f hs
      have := h kv hm
      rw [hs] at this
      exact this
    · intro h kv hm
      cases hs : SETTINGS_SCHEMA kv.1 with
      | none => simp
      | some f => simpa using h kv hm f hs
  · intro hk
    unfold validateSettings
    simp [hk]

/-- Witness for C7 at concrete inputs: the key unknownKey has no validator
and prepending it to the default entries leaves the verdict unchanged. -/
theorem validateSettings_characterization_witness :
    validateSettings (("unknownKey", JsValue.num 0) :: defaultEntries) =
      validateSettings defaultEntries :=
  (validateSettings_characterization defaultEntries "unknownKey" (JsValue.num 0)).2 rfl

/-- C9: every field of DEFAULT_SETTINGS passes its validator, the default
maxImageSize and imageResizeMaxWidth lie in their bounds, every default
commit-message template is shorter than 200 characters, and the default
projectType and publishDateSource belong to their enumerations. -/
theorem default_settings_validate :
    validateSettings defaultEntries = true ∧
    (DEFAULT_SETTINGS .maxImageSize = .num 500 ∧ (10 : Rat) ≤ 500 ∧ (500 : Rat) ≤ 1024) ∧
    (DEFAULT_SETTINGS .imageResizeMaxWidth = .num 1024 ∧
      (0 : Rat) ≤ 1024 ∧ (1024 : Rat) ≤ 10000) ∧
    (∃ s, DEFAULT_SETTINGS .newPostCommit = .str s ∧ s.length < 200) ∧
    (∃ s, DEFAULT_SETTINGS .updatePostCommit = .str s ∧ s.length < 200) ∧
    (∃ s, DEFAULT_SETTINGS .newImageCommit = .str s ∧ s.length < 200) ∧
    (∃ s, DEFAULT_SETTINGS .updateImageCommit = .str s ∧ s.length < 200) ∧
    (∃ s, DEFAULT_SETTINGS .projectType = .str s ∧ (s = "astro" ∨ s = "github")) ∧
    (∃ s, DEFAULT_SETTINGS .publishDateSource = .str s ∧ (s = "file" ∨ s = "system")) :=
  ⟨by decide, ⟨rfl, by norm_num, by norm_num⟩, ⟨rfl, by norm_num, by norm_num⟩,
   ⟨_, rfl, by decide⟩, ⟨_, rfl, by decide⟩, ⟨_, rfl, by decide⟩, ⟨_, rfl, by decide⟩,
   ⟨"astro", rfl, Or.inl rfl⟩, ⟨"file", rfl, Or.inl rfl⟩⟩

/-- C10: setSettings with a partial patch object leaves every settings field
absent from the patch at its previous value and does not touch the
isLoading, isSaving, saveSuccess and isSetupComplete state fields. -/
theorem setSettings_frame (p : PartialSettings) (st : SettingsState)
    (k : SettingsKey) :
    (p k = none → (setSettings (.patchObj p) st).settings k = st.settings k) ∧
    (setSettings (.patchObj p) st).isLoading = st.isLoading ∧
    (setSettings (.patchObj p) st).isSaving = st.isSaving ∧
    (setSettings (.patchObj p) st).saveSuccess = st.saveSuccess ∧
    (setSettings (.patchObj p) st).isSetupComplete = st.isSetupComplete := by
  refine ⟨fun h => ?_, rfl, rfl, rfl, rfl⟩
  simp [setSettings, mergePartial, h]

/-- Witness for C10 at concrete inputs: the empty patch leaves the default
projectType in place. -/
theorem setSettings_frame_witness :
    (setSettings (.patchObj fun _ => none)
        ⟨DEFAULT_SETTINGS, false, false, false, false⟩).settings .projectType =
      DEFAULT_SETTINGS .projectType :=
  (setSettings_frame (fun _ => none)
    ⟨DEFAULT_SETTINGS, false, false, false, false⟩ .projectType).1 rfl

/-- C8 counterexample: calling setScanPhase with the non-null empty-string
phase and no explicit progress yields scanProgress 0, not the 50 the claim
requires for every non-null phase. -/
theorem setScanPhase_counterexample :
    (setScanPhase (some "") none ⟨none, 7⟩).scanProgress = 0 ∧
    (some "" : Option String) ≠ none := by
  exact ⟨rfl, by decide⟩

/-- C8 amended: with an explicit progress value scanProgress is exactly that
value; without one it defaults to 50 when the phase is a truthy (non-empty)
string and to 0 when the phase is null or the empty string; the phase message
is stored as given. -/
theorem setScanPhase_progress_default (phase : Option String)
    (progress : Option Int) (p : Int) (m : String) (st : ScanState) :
    ((setScanPhase phase (some p) st).scanProgress = p) ∧
    (phase = none → (setScanPhase phase none st).scanProgress = 0) ∧
    (phase = some "" → (setScanPhase phase none st).scanProgress = 0) ∧
    (phase = some m → m ≠ "" → (setScanPhase phase none st).scanProgress = 50) ∧
    ((setScanPhase phase progress st).scanPhase = phase) := by
  refine ⟨rfl, ?_, ?_, ?_, rfl⟩
  · intro h; subst h; rfl
  · intro h; subst h; rfl
  · intro h hm; subst h; simp [setScanPhase, optStrTruthy, hm]

/-- Witness for C8 amended at concrete inputs: a non-empty phase defaults to
progress 50 and a null phase clears it to 0. -/
theorem setScanPhase_progress_default_witness :
    (setScanPhase (some "Scanning...") none ⟨none, 0⟩).scanProgress = 50 ∧
    (setScanPhase none none ⟨some "x", 90⟩).scanProgress = 0 :=
  ⟨(setScanPhase_progress_default (some "Scanning...") none 0 "Scanning..."
      ⟨none, 0⟩).2.2.2.1 rfl (by decide),
   (setScanPhase_progress_default none none 0 "" ⟨some "x", 90⟩).2.1 rfl⟩

/-- C2: when the remote config fetches and parses as a truthy document, the
bootstrap marks setup complete and exits without invoking any of the three
scan collaborators; when the remote file is missing (fetch threw) and the
cache is empty, a run whose three scan steps all succeed terminates in the
scan-complete route with isSetupComplete still false. -/
theorem bootstrap_setup_gate (inp : BootInput) (config : Config) :
    (inp.remote = RemoteOutcome.parsedConfig config →
      (loadSettingsAndScan inp).isSetupComplete = true ∧
      (loadSettingsAndScan inp).calledFindUrl = false ∧
      (loadSettingsAndScan inp).calledScanContent = false ∧
      (loadSettingsAndScan inp).calledScanImages = false) ∧
    (inp.remote = RemoteOutcome.fetchOrParseError →
      (∀ key, inp.storage key = none) →
      inp.setup0 = false →
      (∃ u, inp.findUrlResult = Except.ok u) →
      (∃ ds, inp.contentDirsResult = Except.ok ds) →
      (∃ ds, inp.imageDirsResult = Except.ok ds) →
      (loadSettingsAndScan inp).isSetupComplete = false ∧
      (loadSettingsAndScan inp).route = BootRoute.scanDone) := by
  constructor
  · intro h
    simp [loadSettingsAndScan, h]
  · intro hr hs h0 hu hc hi
    obtain ⟨u, hu⟩ := hu
    obtain ⟨ds, hc⟩ := hc
    obtain ⟨is2, hi⟩ := hi
    have hload : ∀ k, dashboardCacheLoad inp.storage inp.repoFullName k = none := by
      intro k
      unfold dashboardCacheLoad
      rw [hs]
    have hpt : withResizeDefault (dashboardCacheLoad inp.storage inp.repoFullName)
        SettingsKey.projectType = none := by
      unfold withResizeDefault
      rw [if_neg (by decide), hload]
    have hrun : ∀ sc s1 ws, (runScan inp sc s1 ws).isSetupComplete = inp.setup0 ∧
        (runScan inp sc s1 ws).route = BootRoute.scanDone := by
      intro sc s1 ws
      unfold runScan scanContentStep scanImagesStep
      rw [hu, hc, hi]
      by_cases hd : jsTruthy (inp.settings0 .domainUrl) = true <;> simp [hd]
    unfold loadSettingsAndScan
    rw [hr]
    dsimp only
    rw [if_neg (by rw [hpt]; simp [optTruthy])]
    rw [(hrun _ _ _).1, (hrun _ _ _).2, h0]
    exact ⟨rfl, rfl⟩

/-- Witness for C2 at concrete inputs: a truthy parsed remote config yields
setup complete with no scan collaborator invoked, and a missing remote file
with empty cache and a successful scan leaves setup incomplete. -/
theorem bootstrap_setup_gate_witness :
    (loadSettingsAndScan
      { settings0 := DEFAULT_SETTINGS, setup0 := false, scan0 := ⟨none, 0⟩
        storage := fun _ => none, repoFullName := "o/r", collectionsData := none
        remote := RemoteOutcome.parsedConfig
          ⟨.undefV, .undefV, .undefV, .undefV, none, none⟩
        findUrlResult := Except.ok none, contentDirsResult := Except.ok []
        imageDirsResult := Except.ok [] }).isSetupComplete = true ∧
    (loadSettingsAndScan
      { settings0 := DEFAULT_SETTINGS, setup0 := false, scan0 := ⟨none, 0⟩
        storage := fun _ => none, repoFullName := "o/r", collectionsData := none
        remote := RemoteOutcome.fetchOrParseError
        findUrlResult := Except.ok none, contentDirsResult := Except.ok []
        imageDirsResult := Except.ok [] }).isSetupComplete = false :=
  ⟨((bootstrap_setup_gate _ ⟨.undefV, .undefV, .undefV, .undefV, none, none⟩).1 rfl).1,
   ((bootstrap_setup_gate
      { settings0 := DEFAULT_SETTINGS, setup0 := false, scan0 := ⟨none, 0⟩
        storage := fun _ => none, repoFullName := "o/r", collectionsData := none
        remote := RemoteOutcome.fetchOrParseError
        findUrlResult := Except.ok none, contentDirsResult := Except.ok []
        imageDirsResult := Except.ok [] }
      ⟨.undefV, .undefV, .undefV, .undefV, none, none⟩).2 rfl (fun _ => rfl) rfl
      ⟨none, rfl⟩ ⟨[], rfl⟩ ⟨[], rfl⟩).1⟩

/-- C3: a document is classified as v2 exactly when its collections property
is a non-empty array, independently of the version property; in particular a
document with version 2 and an empty collections array is treated as
legacy/flat, both by the import check of handleFileImport and by the
spec-modelled bootstrap recognition, and the bootstrap pushes a v2 payload
into the workspace exactly when its collections list is non-empty. -/
theorem v2_detection (c : ImportedConfig) (v : JsValue) (inp : BootInput)
    (cd : CollectionsData) :
    (isV2ImportCheck { c with version := v } = isV2ImportCheck c) ∧
    (isV2ImportCheck c = true ↔ ∃ x xs, c.collections = JsField.arrayOf (x :: xs)) ∧
    (isV2ImportCheck ⟨JsValue.num 2, JsField.arrayOf []⟩ = false) ∧
    (bootstrapV2Check { c with version := v } = bootstrapV2Check c) ∧
    (bootstrapV2Check ⟨JsValue.num 2, JsField.arrayOf []⟩ = false) ∧
    (inp.collectionsData = some cd →
      ((loadSettingsAndScan inp).workspaceCollections = some cd.collections ↔
        cd.collections ≠ [])) := by
  refine ⟨rfl, ?_, rfl, rfl, rfl, ?_⟩
  · cases hc : c.collections with
    | scalar w => simp [isV2ImportCheck, hc]
    | arrayOf xs =>
      cases xs with
      | nil => simp [isV2ImportCheck, hc]
      | cons x tail => simp [isV2ImportCheck, hc]
  · intro h
    rw [loadSettingsAndScan_workspace, h]
    cases hcol : cd.collections with
    | nil => simp [hcol]
    | cons x tail => simp [hcol]

/-- Witness for C3 at concrete inputs: a one-element collections payload is
pushed into the workspace. -/
theorem v2_detection_witness :
    (loadSettingsAndScan
      { settings0 := DEFAULT_SETTINGS, setup0 := false, scan0 := ⟨none, 0⟩
        storage := fun _ => none, repoFullName := "o/r"
        collectionsData := some ⟨[JsValue.num 1], none⟩
        remote := RemoteOutcome.fetchOrParseError
        findUrlResult := Except.ok none, contentDirsResult := Except.ok []
        imageDirsResult := Except.ok [] }).workspaceCollections
      = some [JsValue.num 1] ↔ ([JsValue.num 1] : List JsValue) ≠ [] :=
  (v2_detection ⟨.undefV, .scalar .undefV⟩ .undefV _ ⟨[JsValue.num 1], none⟩).2.2.2.2.2 rfl

/-- C5 counterexample: a cache that supplies all three mandatory fields —
with an empty string cached for postsPath — does not make the bootstrap stop
at the cache-sufficiency phase: setup stays incomplete and the scan runs. -/
theorem cache_fallback_counterexample :
    (fun inp : BootInput =>
      inp.storage "projectType_o/r" = some "astro" ∧
      inp.storage "postsPath_o/r" = some "" ∧
      inp.storage "imagesPath_o/r" = some "pics" ∧
      (loadSettingsAndScan inp).route ≠ BootRoute.cacheFallback ∧
      (loadSettingsAndScan inp).isSetupComplete = false ∧
      (loadSettingsAndScan inp).calledScanContent = true)
    { settings0 := DEFAULT_SETTINGS, setup0 := false, scan0 := ⟨none, 0⟩
      storage := fun key =>
        if key = "projectType_o/r" then some "astro"
        else if key = "postsPath_o/r" then some ""
        else if key = "imagesPath_o/r" then some "pics"
        else none
      repoFullName := "o/r", collectionsData := none
      remote := RemoteOutcome.fetchOrParseError
      findUrlResult := Except.ok none, contentDirsResult := Except.ok []
      imageDirsResult := Except.ok [] } := by
  refine ⟨rfl, rfl, rfl, ?_, rfl, rfl⟩
  decide

/-- C5 amended: when no usable remote config exists (the fetch or parse
failed, or the document parsed falsy), the bootstrap stops at the
cache-sufficiency phase if and only if the validated cached values of
projectType, postsPath and imagesPath are all present and truthy (non-empty);
in that case it marks setup complete without invoking any scan
collaborator. -/
theorem cache_fallback_iff (inp : BootInput) :
    (inp.remote = RemoteOutcome.fetchOrParseError ∨
      inp.remote = RemoteOutcome.parsedFalsy) →
    (((loadSettingsAndScan inp).route = BootRoute.cacheFallback ↔
      (optTruthy (withResizeDefault
          (dashboardCacheLoad inp.storage inp.repoFullName) .projectType) = true ∧
        optTruthy (withResizeDefault
          (dashboardCacheLoad inp.storage inp.repoFullName) .postsPath) = true ∧
        optTruthy (withResizeDefault
          (dashboardCacheLoad inp.storage inp.repoFullName) .imagesPath) = true)) ∧
      ((loadSettingsAndScan inp).route = BootRoute.cacheFallback →
        (loadSettingsAndScan inp).isSetupComplete = true ∧
        (loadSettingsAndScan inp).calledFindUrl = false ∧
        (loadSettingsAndScan inp).calledScanContent = false ∧
        (loadSettingsAndScan inp).calledScanImages = false)) := by
  intro hr
  have hscan : ∀ sc s1 ws, (runScan inp sc s1 ws).route = BootRoute.scanDone ∨
      (runScan inp sc s1 ws).route = BootRoute.scanError := by
    intro sc s1 ws
    unfold runScan scanContentStep scanImagesStep
    repeat' first
      | (left ; rfl)
      | (right ; rfl)
      | split
  have hbody : loadSettingsAndScan inp =
      (let ws :=
        match inp.collectionsData with
        | some cd => if cd.collections.length > 0 then some cd.collections else none
        | none => none
      let scan1 := setScanPhase (some "Loading saved settings...") (some 10) inp.scan0
      let loaded := withResizeDefault (dashboardCacheLoad inp.storage inp.repoFullName)
      let settings1 := mergePartial inp.settings0 loaded
      let scan2 := setScanPhase (some "Loading saved settings...") (some 20) scan1
      let scan3 := setScanPhase (some "Checking for .pageelrc.json...") (some 30) scan2
      let scan4 :=
        match inp.remote with
        | .fetchOrParseError =>
          setScanPhase (some "No configuration found, scanning repository...") (some 50) scan3
        | _ => scan3
      if optTruthy (loaded .projectType) ∧ optTruthy (loaded .postsPath)
          ∧ optTruthy (loaded .imagesPath) then
        { settings := settings1, isSetupComplete := true, isScanning := false
          scan := setScanPhase (some "Using cached settings") (some 100) scan4
          suggestedPostPaths := [], suggestedImagePaths := []
          calledFindUrl := false, calledScanContent := false, calledScanImages := false
          route := .cacheFallback, workspaceCollections := ws }
      else
        runScan inp scan4 settings1 ws) := by
    rcases hr with hr | hr <;> rw [loadSettingsAndScan, hr]
  rw [hbody]
  dsimp only
  by_cases hc : optTruthy (withResizeDefault
      (dashboardCacheLoad inp.storage inp.repoFullName) .projectType) = true ∧
      optTruthy (withResizeDefault
        (dashboardCacheLoad inp.storage inp.repoFullName) .postsPath) = true ∧
      optTruthy (withResizeDefault
        (dashboardCacheLoad inp.storage inp.repoFullName) .imagesPath) = true
  · rw [if_pos hc]
    exact ⟨⟨fun _ => hc, fun _ => rfl⟩, fun _ => ⟨rfl, rfl, rfl, rfl⟩⟩
  · rw [if_neg hc]
    have hne : ∀ sc s1 ws, (runScan inp sc s1 ws).route ≠ BootRoute.cacheFallback := by
      intro sc s1 ws h
      rcases hscan sc s1 ws with h2 | h2 <;> rw [h] at h2 <;> cases h2
    exact ⟨⟨fun h => absurd h (hne _ _ _), fun h => absurd h hc⟩,
      fun h => absurd h (hne _ _ _)⟩

/-- Witness for C5 amended at concrete inputs: with all three fields cached
truthy and no usable remote file, the run exits through the cache-fallback
route. -/
theorem cache_fallback_iff_witness :
    (loadSettingsAndScan
      { settings0 := DEFAULT_SETTINGS, setup0 := false, scan0 := ⟨none, 0⟩
        storage := fun key =>
          if key = "projectType_o/r" then some "astro"
          else if key = "postsPath_o/r" then some "content/posts"
          else if key = "imagesPath_o/r" then some "pics"
          else none
        repoFullName := "o/r", collectionsData := none
        remote := RemoteOutcome.fetchOrParseError
        findUrlResult := Except.ok none, contentDirsResult := Except.ok []
        imageDirsResult := Except.ok [] }).route = BootRoute.cacheFallback :=
  ((cache_fallback_iff _ (Or.inl rfl)).1).2 ⟨by decide, by decide, by decide⟩

/-- C4 counterexample: the remote field domainUrl with the empty-string value
passes its validator (any string is accepted) yet is not merged into the
draft, because the top-level truthiness guard skips it. -/
theorem remote_merge_counterexample :
    schemaCheck "domainUrl" (JsValue.str "") = true ∧
    remoteMerge
      { projectType := .undefV, pathsPosts := .undefV, pathsImages := .undefV
        domainUrl := JsValue.str "", settingsObj := none, commitsObj := none }
      (fun _ => JsValue.str "prev") .domainUrl = JsValue.str "prev" ∧
    JsValue.str "prev" ≠ JsValue.str "" := by
  refine ⟨rfl, rfl, by decide⟩

set_option maxHeartbeats 2000000 in
/-- C4 amended: the remote v1/flat merge overwrites a settings field with the
remote value exactly when the value is defined and passes the field's
validator and — for the four top-level fields projectType, postsPath,
imagesPath and domainUrl — is additionally truthy; any other field keeps the
draft value, so one rejected field never disturbs the rest of the merge. -/
theorem remoteMerge_characterization (config : Config) (draft0 : Settings)
    (k : SettingsKey) :
    remoteMerge config draft0 k =
      if remoteFieldMerged config k = true then remoteFieldValue config k
      else draft0 k := by
  rcases config with ⟨pt, pp, pi, du, so, co⟩
  cases so <;> cases co <;> cases k <;>
    simp only [remoteMerge, applyIfValid_apply, if_apply] <;>
    simp [remoteFieldMerged, remoteFieldValue, guardedField, schemaCheck, keyName] <;>
    split_ifs <;> simp_all

end Pageel
